import Mathlib

/-!
Verification development for the PatternV byte-signature scanner
(src/PatternV.cpp).

The C++ source is shallowly embedded as executable Lean definitions:

* buffers are `List Nat` (each element a byte value; reads go through
  `readU8`, which models in-bounds reads exactly and returns 0 for an
  out-of-bounds index — the instrumented `getTextSectionReads` records
  every index the C++ code would dereference, so out-of-bounds accesses
  are visible as recorded indices `≥ buffer.length`);
* machine integers are `Nat`/`Int` with explicit `% 2^32` (`U32`) or
  `% 2^64` (`U64`) where the C++ performs fixed-width arithmetic;
* `std::optional` is `Option`, exceptions (`std::stoul`, `std::stoi`,
  `std::filesystem` errors) become `Option`/explicit outcome values.

Each embedded definition carries a comment naming the C++ function it
translates.
-/

set_option maxRecDepth 100000

/-! ### Character helpers (C locale classification used by the stream
extraction, `std::stoul`, `std::stoi` and the `\d` regex class) -/

/-- C `isspace` in the default locale: space, \t, \n, \v, \f, \r. -/
def isSpaceB (c : Char) : Bool :=
  c == ' ' || c == '\t' || c == '\n' || c == '\x0b' || c == '\x0c' || c == '\r'

/-- ASCII decimal digit (the `\d` class of `std::regex`, and the digits
accepted by `std::stoi`). -/
def isDigitB (c : Char) : Bool :=
  48 ≤ c.toNat && c.toNat ≤ 57

/-- Value of a decimal digit character. -/
def digitVal (c : Char) : Nat := c.toNat - 48

/-- Hexadecimal digit value, case-insensitive (the digits accepted by
`std::stoul` with base 16). -/
def hexDigitVal (c : Char) : Option Nat :=
  if 48 ≤ c.toNat ∧ c.toNat ≤ 57 then some (c.toNat - 48)
  else if 97 ≤ c.toNat ∧ c.toNat ≤ 102 then some (c.toNat - 87)
  else if 65 ≤ c.toNat ∧ c.toNat ≤ 70 then some (c.toNat - 55)
  else none

def isHexDigitB (c : Char) : Bool := (hexDigitVal c).isSome

/-- 2^32; the modulus of `uint32_t`/`unsigned int` arithmetic. -/
def U32 : Nat := 4294967296

/-- 2^64; the modulus of `unsigned long` arithmetic (64-bit target). -/
def U64 : Nat := 18446744073709551616

/-! ### Pattern Compiler — embedding of `parseBytePattern` -/

/-- `std::istringstream >> std::string`: split the input on runs of
whitespace, dropping empty tokens. -/
def splitWs : List Char → List Char → List (List Char)
  | [], acc => if acc.isEmpty then [] else [acc.reverse]
  | c :: cs, acc =>
    if isSpaceB c then
      if acc.isEmpty then splitWs cs [] else acc.reverse :: splitWs cs []
    else splitWs cs (c :: acc)

/-- Optional sign handling of `strtoul`/`strtol`. -/
def splitSign : List Char → Bool × List Char
  | [] => (false, [])
  | c :: r =>
    if c == '-' then (true, r)
    else if c == '+' then (false, r)
    else (false, c :: r)

/-- The optional `0x`/`0X` marker accepted by `strtoul` with base 16; it is
consumed only when a hex digit follows (otherwise the subject sequence is
just the leading `0`). -/
def dropHexMark (s : List Char) : List Char :=
  match s with
  | c0 :: c1 :: r =>
    if c0 == '0' && (c1 == 'x' || c1 == 'X')
        && (match r with | d :: _ => isHexDigitB d | [] => false) then r
    else s
  | _ => s

/-- Accumulated value of a hex-digit string. -/
def hexListVal (ds : List Char) : Nat :=
  ds.foldl (fun a c => 16 * a + (hexDigitVal c).getD 0) 0

/-- Accumulated value of a decimal-digit string. -/
def decListVal (ds : List Char) : Nat :=
  ds.foldl (fun a c => 10 * a + digitVal c) 0

/-- `std::stoul(s, nullptr, 16)`: skip whitespace, optional sign, optional
`0x` marker, then the longest run of hex digits.  `none` models a thrown
`std::invalid_argument` (no digits) or `std::out_of_range` (magnitude
above `ULONG_MAX`).  A `-` sign negates in `unsigned long` arithmetic. -/
def stoulHex (t : List Char) : Option Nat :=
  let s1 := (t.dropWhile isSpaceB)
  let p := splitSign s1
  let s3 := dropHexMark p.2
  let ds := s3.takeWhile isHexDigitB
  if ds.isEmpty then none
  else
    let m := hexListVal ds
    if U64 ≤ m then none
    else some (if p.1 then (U64 - m) % U64 else m)

/-- One token of `parseBytePattern`'s loop body: `some none` is a Wildcard
element, `some (some b)` a Fixed element with byte value `b` (the
`static_cast<uint8_t>` is the `% 256`), and `none` means the token is
skipped after the "Invalid byte" warning (the `catch` branch). -/
def tokenElem (t : List Char) : Option (Option Nat) :=
  if t == ['?'] || t == ['?', '?'] then some none
  else
    match stoulHex t with
    | some v => some (some (v % 256))
    | none => none

/-- Embedding of `parseBytePattern`. -/
def parseBytePattern (input : List Char) : List (Option Nat) :=
  (splitWs input []).filterMap tokenElem

/-! ### Byte Matcher — embedding of `searchAllPatternOffsets` -/

/-- Inner loop of `searchAllPatternOffsets`: all pattern elements match at
start offset `i` (a `none` element is a wildcard). -/
def matchesAt (data : List Nat) (pattern : List (Option Nat)) (i : Nat) : Bool :=
  (List.range pattern.length).all fun j =>
    match pattern.getD j none with
    | none => true
    | some v => data.getD (i + j) 0 == v

/-- Embedding of `searchAllPatternOffsets`: record every `i` from `0` to
`size - pattern.size()` (inclusive) at which all elements match; return
`[]` up front when `size < pattern.size()`. -/
def searchAllPatternOffsets (data : List Nat) (pattern : List (Option Nat)) : List Nat :=
  if data.length < pattern.length then []
  else (List.range (data.length - pattern.length + 1)).filter (matchesAt data pattern)

/-! ### Section Locator — embedding of `getTextSection` -/

/-- Byte read `buffer[i]`; an out-of-bounds index yields 0 here, and is
recorded by the instrumented reads functions below. -/
def readU8 (b : List Nat) (i : Nat) : Nat := b.getD i 0

/-- Little-endian unaligned 16-bit read. -/
def readU16 (b : List Nat) (i : Nat) : Nat := readU8 b i + 256 * readU8 b (i + 1)

/-- Little-endian unaligned 32-bit read. -/
def readU32 (b : List Nat) (i : Nat) : Nat :=
  readU8 b i + 256 * readU8 b (i + 1) + 65536 * readU8 b (i + 2) + 16777216 * readU8 b (i + 3)

structure SectionInfo where
  rawOffset : Nat
  rawSize : Nat
deriving DecidableEq

/-- The five bytes of the `".text"` literal compared by `strncmp`. -/
def textBytes : List Nat := [46, 116, 101, 120, 116]

/-- `strncmp(name, ".text", 5) == 0`. -/
def nameIsText (buf : List Nat) (off : Nat) : Bool :=
  [readU8 buf off, readU8 buf (off + 1), readU8 buf (off + 2),
   readU8 buf (off + 3), readU8 buf (off + 4)] == textBytes

/-- The section-table walk of `getTextSection` (the `for` loop over
`numberOfSections` entries of 40 bytes each).  The `rawDataPtr + rawSize`
bounds test is `uint32_t` addition, hence the `% U32`. -/
def sectionLoop (buf : List Nat) (off : Nat) : Nat → Option SectionInfo
  | 0 => none
  | n + 1 =>
    if off + 40 > buf.length then none
    else if nameIsText buf off then
      -- rawDataPtr = readU32 buf (off + 20), rawSize = readU32 buf (off + 16)
      if (readU32 buf (off + 20) + readU32 buf (off + 16)) % U32 ≤ buf.length then
        some ⟨readU32 buf (off + 20), readU32 buf (off + 16)⟩
      else sectionLoop buf (off + 40) n
    else sectionLoop buf (off + 40) n

/-- Embedding of `getTextSection`.  `peOffset + 0x18` and
`peOffset + 24 + sizeOfOptionalHeader` are `unsigned int` sums in the
C++ source, hence the `% U32`. -/
def getTextSection (buffer : List Nat) : Option SectionInfo :=
  if buffer.length < 0x1000 then none
  else if readU16 buffer 0 ≠ 0x5A4D then none
  else
    let peOffset := readU32 buffer 0x3C
    if (peOffset + 0x18) % U32 ≥ buffer.length then none
    else if readU32 buffer peOffset ≠ 0x4550 then none
    else
      let numberOfSections := readU16 buffer (peOffset + 6)
      let sizeOfOptionalHeader := readU16 buffer (peOffset + 20)
      sectionLoop buffer ((peOffset + 24 + sizeOfOptionalHeader) % U32) numberOfSections

/-! ### Instrumented Section Locator: the byte indices `getTextSection`
dereferences, in order.  This mirrors the control flow above exactly; a
16-bit read at `i` touches `i, i+1`, a 32-bit read `i .. i+3`, and
`strncmp` touches name bytes up to and including the first mismatch. -/

def readsU16 (i : Nat) : List Nat := [i, i + 1]

def readsU32 (i : Nat) : List Nat := [i, i + 1, i + 2, i + 3]

/-- Number of name bytes `strncmp(name, ".text", 5)` examines: it stops
after the first differing byte (no byte of `".text"` is NUL). -/
def strncmpTextCount (buf : List Nat) (off : Nat) : Nat :=
  if readU8 buf off ≠ 46 then 1
  else if readU8 buf (off + 1) ≠ 116 then 2
  else if readU8 buf (off + 2) ≠ 101 then 3
  else if readU8 buf (off + 3) ≠ 120 then 4
  else 5

def strncmpTextReads (buf : List Nat) (off : Nat) : List Nat :=
  (List.range (strncmpTextCount buf off)).map (off + ·)

def sectionLoopReads (buf : List Nat) (off : Nat) : Nat → List Nat
  | 0 => []
  | n + 1 =>
    if off + 40 > buf.length then []
    else
      strncmpTextReads buf off ++
        (if nameIsText buf off then
          readsU32 (off + 20) ++ readsU32 (off + 16) ++
            (if (readU32 buf (off + 20) + readU32 buf (off + 16)) % U32 ≤ buf.length then []
             else sectionLoopReads buf (off + 40) n)
         else sectionLoopReads buf (off + 40) n)

/-- Every byte index `getTextSection` dereferences, in program order. -/
def getTextSectionReads (buffer : List Nat) : List Nat :=
  if buffer.length < 0x1000 then []
  else
    readsU16 0 ++
      (if readU16 buffer 0 ≠ 0x5A4D then []
       else
        readsU32 0x3C ++
          (let peOffset := readU32 buffer 0x3C
           if (peOffset + 0x18) % U32 ≥ buffer.length then []
           else
            readsU32 peOffset ++
              (if readU32 buffer peOffset ≠ 0x4550 then []
               else
                readsU16 (peOffset + 6) ++ readsU16 (peOffset + 20) ++
                  sectionLoopReads buffer
                    ((peOffset + 24 + readU16 buffer (peOffset + 20)) % U32)
                    (readU16 buffer (peOffset + 6)))))

/-! ### Filename helpers — embeddings of `extractGameName`,
`extractBuildNumber`, and the `std::stoi` sort key of `scanFile` -/

/-- Index of the last `'.'` in `s`; only meaningful when one is present. -/
def lastDotIdx (s : List Char) : Nat :=
  s.length - 1 - (s.reverse.findIdx (· == '.'))

/-- Embedding of `extractGameName`: strip from the last `'.'`
(`find_last_of`/`substr`; when there is no dot, `substr(0, npos)` keeps
everything), then cut at the first `'-'` or `'_'`.  `List.findIdx`
returns the length when no match exists, exactly the `npos → size()`
mapping of the source. -/
def extractGameName (filename : List Char) : List Char :=
  let nameOnly := if filename.contains '.' then filename.take (lastDotIdx filename) else filename
  let dashPos := nameOnly.findIdx (· == '-')
  let usPos := nameOnly.findIdx (· == '_')
  nameOnly.take (min dashPos usPos)

/-- Four decimal digits start at position `i` of `s`. -/
def fourDigitsAt (s : List Char) (i : Nat) : Bool :=
  ((s.drop i).take 4).length == 4 && ((s.drop i).take 4).all isDigitB

/-- Embedding of `extractBuildNumber`: `std::regex_search` for `(\d{4})`
returns the leftmost window of four consecutive decimal digits. -/
def extractBuildNumber : List Char → Option (List Char)
  | [] => none
  | c :: cs =>
    if fourDigitsAt (c :: cs) 0 then some ((c :: cs).take 4)
    else extractBuildNumber cs

/-- `std::stoi`: skip whitespace, optional sign, then the longest run of
decimal digits; `none` models a thrown `std::invalid_argument` (no
digits) or `std::out_of_range` (outside `int`'s range). -/
def stoiModel (t : List Char) : Option Int :=
  let s1 := t.dropWhile isSpaceB
  let p := splitSign s1
  let ds := p.2.takeWhile isDigitB
  if ds.isEmpty then none
  else
    let m : Int := (decListVal ds : Nat)
    let v : Int := if p.1 then -m else m
    if v < -2147483648 ∨ 2147483647 < v then none else some v

/-- The numeric sort key computed in `scanFile`: `std::stoi(build)` with
the `catch` branch storing 0. -/
def stoiKey (t : List Char) : Int := (stoiModel t).getD 0

/-- `std::filesystem::path::extension` of a plain filename: the suffix
from the last dot, except that `"."`, `".."` and a leading-dot name with
no other dot have no extension. -/
def extOf (name : List Char) : List Char :=
  if name = ['.'] ∨ name = ['.', '.'] then []
  else if name.contains '.' then
    let i := lastDotIdx name
    if i = 0 then [] else name.drop i
  else []

/-! ### Report-line rendering — embedding of the `ostringstream` bodies
in `scanFile` (the `RED`/`GREEN`/`YELLOW`/`RESET` macros expand to ANSI
escapes when `useColors` is set and to `""` otherwise) -/

def cRED (colors : Bool) : List Char := if colors then ['\x1b', '[', '3', '1', 'm'] else []
def cGREEN (colors : Bool) : List Char := if colors then ['\x1b', '[', '3', '2', 'm'] else []
def cYELLOW (colors : Bool) : List Char := if colors then ['\x1b', '[', '3', '3', 'm'] else []
def cRESET (colors : Bool) : List Char := if colors then ['\x1b', '[', '0', 'm'] else []

/-- `<< std::hex << std::uppercase << n`. -/
def natHexU (n : Nat) : List Char := (Nat.toDigits 16 n).map Char.toUpper

/-- The offset list of a found line: each offset as `0x…` hex, `", "`
between consecutive offsets. -/
def renderMatches (colors : Bool) : List Nat → List Char
  | [] => []
  | [o] => cYELLOW colors ++ ("0x".toList) ++ natHexU o ++ cRESET colors
  | o :: rest =>
    cYELLOW colors ++ ("0x".toList) ++ natHexU o ++ cRESET colors ++ (", ".toList) ++
      renderMatches colors rest

/-- The report line built by `scanFile` for a file with game name `game`,
build string `build` and match offsets `ms`. -/
def renderLine (colors : Bool) (game build : List Char) (ms : List Nat) : List Char :=
  if ms.isEmpty then
    cRED colors ++ ("[-]".toList) ++ cRESET colors ++ (" Pattern not found in ".toList) ++
      game ++ (" v".toList) ++ cYELLOW colors ++ build ++ cRESET colors
  else
    cGREEN colors ++ ("[+]".toList) ++ cRESET colors ++ (" Pattern found in ".toList) ++
      game ++ (" v".toList) ++ cYELLOW colors ++ build ++ cRESET colors ++ (" (".toList) ++
      Nat.toDigits 10 ms.length ++ (" matches): ".toList) ++ renderMatches colors ms

/-- `std::string::find(sub) != npos`. -/
def hasInfixB (needle : List Char) : List Char → Bool
  | [] => needle.isEmpty
  | c :: hay => needle.isPrefixOf (c :: hay) || hasInfixB needle hay

def notFoundMarker : List Char := "Pattern not found".toList

/-! ### Scan Orchestrator — embeddings of `scanFile` and `scanDirectory` -/

/-- One candidate file as the orchestrator sees it: its name, whether it
is a regular file, and the bytes `readFile` would deliver (`[]` models a
failed `fopen`/`fseek`/`fread` or an empty file — all of which make
`readFile` return an empty vector). -/
structure FileInput where
  name : List Char
  isRegular : Bool
  content : List Nat
deriving DecidableEq

/-- The `ResultLine` struct pushed into `outputBuffer`, with the spec's
implicit found/not-found flag carried alongside as a ghost field (in the
C++ struct it is implicit in the line text). -/
structure ResultLine where
  build : Int
  line : List Char
  found : Bool
deriving DecidableEq

def txtExt : List Char := ".text".toList

def exeExt : List Char := ".exe".toList

/-- The section slice `buffer.data() + rawOffset` with length `rawSize`,
as a list (meaningful when `rawOffset + rawSize ≤ buffer.length`, which
is what claim C2 is about). -/
def sliceSection (content : List Nat) (si : SectionInfo) : List Nat :=
  (content.drop si.rawOffset).take si.rawSize

/-- Embedding of `scanFile`: `none` means the unit contributed nothing to
`outputBuffer` (read failure, or `.text` section not found). -/
def scanFileModel (colors : Bool) (pat : List (Option Nat)) (f : FileInput) :
    Option ResultLine :=
  if f.content.isEmpty then none
  else
    let sect : Option (List Nat) :=
      if extOf f.name == txtExt then some f.content
      else (getTextSection f.content).map (sliceSection f.content)
    match sect with
    | none => none
    | some bytes =>
      let game := extractGameName f.name
      let build := (extractBuildNumber f.name).getD f.name
      let ms := searchAllPatternOffsets bytes pat
      some { build := stoiKey build, line := renderLine colors game build ms,
             found := !ms.isEmpty }

/-- `std::sort(outputBuffer, [](a, b){ return a.build < b.build; })`,
modelled as a stable insertion sort — one permissible `std::sort`
outcome: the output is a permutation that is nondecreasing in `build`,
and elements with equal keys keep their collection order (what
`std::sort`'s small-array insertion sort does on two tied elements). -/
def sortResults (rs : List ResultLine) : List ResultLine :=
  rs.insertionSort (fun a b => a.build ≤ b.build)

/-- Embedding of `scanDirectory`'s aggregation: `completed` is
`outputBuffer` in the order the concurrent workers happened to append
(each worker contributes via `scanFileModel`); the result is the emitted
lines in sorted order paired with `allFound`, which the source computes
by searching each emitted line for the substring `"Pattern not found"`. -/
def scanDirectoryModel (colors : Bool) (pat : List (Option Nat))
    (completed : List FileInput) : List (List Char) × Bool :=
  let results := completed.filterMap (scanFileModel colors pat)
  let sorted := sortResults results
  (sorted.map (·.line), sorted.all fun r => !hasInfixB notFoundMarker r.line)

/-! ### Entry point — embedding of `main`'s control flow (after flag
parsing) and of `scanDirectory`'s directory enumeration -/

/-- The state of the supplied scan path: whether it exists, whether it is
a directory, and its entries when it is one. -/
structure DirState where
  present : Bool
  isDir : Bool
  entries : List FileInput
deriving DecidableEq

def dirValid (d : DirState) : Bool := d.present && d.isDir

/-- The enumeration filter of `scanDirectory`: regular files whose
extension is `.exe` or `.text`. -/
def candidates (d : DirState) : List FileInput :=
  d.entries.filter fun f => f.isRegular && (extOf f.name == exeExt || extOf f.name == txtExt)

/-- How a run of the program ends: a normal exit (after any error message
printed to the user), or process termination by an uncaught exception. -/
inductive RunOutcome where
  | exited (code : Int)
  | crashed
deriving DecidableEq

/-- Observable behaviour of a run: its outcome and the names of the files
whose contents were read (`readFile` calls), in order. -/
structure MainRun where
  outcome : RunOutcome
  filesRead : List (List Char)
deriving DecidableEq

/-- `scanDirectory` including the `fs::directory_iterator(folderPath)`
construction, which throws `std::filesystem::filesystem_error` when the
path does not exist or is not a directory; `none` models that throw
(no file has been read at that point). -/
def scanDirectoryRun (colors : Bool) (pat : List (Option Nat)) (d : DirState) :
    Option (List (List Char) × Bool) :=
  if dirValid d then some (scanDirectoryModel colors pat (candidates d)) else none

/-- Argument mode of `main` (a non-empty pattern argument was supplied):
parse the pattern; reject an empty compile with exit code 1 before any
filesystem access; otherwise run `scanDirectory` — whose iterator throw
is NOT caught in `main`, so an invalid path crashes the process. -/
def mainArgMode (colors : Bool) (argPattern : List Char) (d : DirState) : MainRun :=
  let pat := parseBytePattern argPattern
  if pat.isEmpty then ⟨.exited 1, []⟩
  else
    match scanDirectoryRun colors pat d with
    | none => ⟨.crashed, []⟩
    | some r => ⟨.exited (if r.2 then 0 else 2), (candidates d).map (·.name)⟩

/-- The interactive prompt loop: each input line is parsed; an
empty-compiling line (including the empty line `getline` yields at EOF)
prints "Invalid pattern." and breaks the loop.  Returns the names of all
files read. -/
def interactiveLoop (colors : Bool) (d : DirState) : List (List Char) → List (List Char)
  | [] => []
  | line :: rest =>
    if (parseBytePattern line).isEmpty then []
    else (candidates d).map (·.name) ++ interactiveLoop colors d rest

/-- Interactive mode of `main` (no pattern argument): the path is
validated up front, with exit code 1 and no file I/O when invalid. -/
def mainInteractive (colors : Bool) (inputs : List (List Char)) (d : DirState) : MainRun :=
  if !dirValid d then ⟨.exited 1, []⟩
  else ⟨.exited 0, interactiveLoop colors d inputs⟩

/-- `main` after flag parsing (extract mode aside): argument mode when a
pattern argument was given, interactive mode otherwise. -/
def mainModel (colors : Bool) (argPattern : List Char) (inputs : List (List Char))
    (d : DirState) : MainRun :=
  if !argPattern.isEmpty then mainArgMode colors argPattern d
  else mainInteractive colors inputs d

/-! ### Spec-side definitions.  These follow the wording of the spec (not
the source); they exist to compare claims against the embedded code. -/

/-- Modelled from the spec (claim C7): token `?`/`??` is a Wildcard; a
token that parses as a 2-hex-digit (or shorter) unsigned byte is a Fixed
element with that value; any other token contributes no element. -/
def specTokenC7 (t : List Char) : Option (Option Nat) :=
  if t = ['?'] ∨ t = ['?', '?'] then some none
  else if t ≠ [] ∧ t.length ≤ 2 ∧ t.all isHexDigitB then some (some (hexListVal t))
  else none

/-- Length of the trailing run of decimal digits of `s`. -/
def trailingDigitRun (s : List Char) : Nat :=
  (s.reverse.takeWhile isDigitB).length

/-- Modelled from the spec (claim C6): the BuildIdentifier is the trailing
run of exactly four decimal digits of the filename when present, else the
raw filename. -/
def specBuildIdC6 (s : List Char) : List Char :=
  if trailingDigitRun s = 4 then s.drop (s.length - 4) else s

/-- The BuildIdentifier the code computes:
`extractBuildNumber(filename).value_or(filename)` in `scanFile`. -/
def buildIdOf (s : List Char) : List Char := (extractBuildNumber s).getD s

/-- The element-wise match condition of claim C3 at offset `o`, element
`j`: the element is a Wildcard or the buffer byte at `o + j` equals the
element's fixed value. -/
def elemMatchC3 (data : List Nat) (pattern : List (Option Nat)) (o j : Nat) : Prop :=
  ∀ v, pattern.getD j none = some v → data.getD (o + j) 0 = v

/-! ### Concrete buffers for the Section Locator claims.  Each is a
small explicit front segment padded with zero bytes to the 0x1000-byte
minimum; the padding lemmas below let reads be evaluated without
reducing the whole 4096-element list. -/

/-- First 64 bytes of the claim-C1 buffer: valid `MZ` magic,
`e_lfanew = 0xFFFFFFF0` at offset 0x3C. -/
def c1front : List Nat :=
  [0x4D, 0x5A] ++ List.replicate 58 0 ++ [0xF0, 0xFF, 0xFF, 0xFF]

/-- 4096-byte buffer on which the 32-bit sum `peOffset + 0x18` wraps to
8, so the bounds check passes and the code dereferences
`buffer[0xFFFFFFF0]`. -/
def c1buf : List Nat := c1front ++ List.replicate 4032 0

/-- First 176 bytes of the claim-C2 buffer: valid `MZ`/`PE` headers, one
section named `.text` with `SizeOfRawData = 1` (at 0xA8) and
`PointerToRawData = 0xFFFFFFFF` (at 0xAC). -/
def c2front : List Nat :=
  [0x4D, 0x5A] ++ List.replicate 58 0 ++ [0x80, 0, 0, 0] ++ List.replicate 64 0 ++
    [0x50, 0x45, 0, 0] ++ [0, 0, 1, 0] ++ List.replicate 12 0 ++ [0, 0] ++ [0, 0] ++
    [46, 116, 101, 120, 116] ++ List.replicate 11 0 ++ [1, 0, 0, 0] ++
    [0xFF, 0xFF, 0xFF, 0xFF]

/-- 4096-byte buffer on which the `uint32_t` validation
`rawDataPtr + rawSize <= size` wraps (0xFFFFFFFF + 1 ≡ 0) and passes,
so the locator returns a section far outside the buffer. -/
def c2buf : List Nat := c2front ++ List.replicate 3920 0

/-- First 216 bytes of the claim-C10 buffer: valid `MZ`/`PE` headers and
two sections both named `.text`; the first (table offset 0x98) has
`SizeOfRawData = 0x2000`, `PointerToRawData = 0`, failing the bounds
validation against a 0x1000-byte buffer; the second (table offset 0xC0)
has `SizeOfRawData = 0x10`, `PointerToRawData = 0x100`, passing it. -/
def c10front : List Nat :=
  [0x4D, 0x5A] ++ List.replicate 58 0 ++ [0x80, 0, 0, 0] ++ List.replicate 64 0 ++
    [0x50, 0x45, 0, 0] ++ [0, 0, 2, 0] ++ List.replicate 12 0 ++ [0, 0, 0, 0] ++
    [46, 116, 101, 120, 116] ++ List.replicate 11 0 ++ [0, 0x20, 0, 0] ++ [0, 0, 0, 0] ++
    List.replicate 16 0 ++
    [46, 116, 101, 120, 116] ++ List.replicate 11 0 ++ [0x10, 0, 0, 0] ++ [0, 1, 0, 0]

/-- 4096-byte buffer with two `.text` section-table entries, the first
failing the bounds validation and the second passing it. -/
def c10buf : List Nat := c10front ++ List.replicate 3880 0

/-! ### Concrete orchestrator inputs for claims C5 and C9 -/

/-- A one-byte pre-extracted section file whose name contains the text
`Pattern not found`; the scan pattern `[0x90]` matches its content. -/
def c5file : FileInput :=
  { name := ("Pattern not found in a_1234.text").toList, isRegular := true, content := [144] }

/-- Two pre-extracted section files with no four-digit run in their
names: both get sort key 0 (`std::stoi` throws on `a.text`/`b.text`). -/
def c9a : FileInput := { name := ("a.text").toList, isRegular := true, content := [2] }

def c9b : FileInput := { name := ("b.text").toList, isRegular := true, content := [2] }

/-- Two pre-extracted section files with distinct four-digit builds. -/
def c9c : FileInput := { name := ("a_1001.text").toList, isRegular := true, content := [2] }

def c9d : FileInput := { name := ("b_1002.text").toList, isRegular := true, content := [2] }

/-! ### Claims, preceded by the evaluation lemmas they need.  The
concrete buffers are evaluated through the padding lemmas below rather
than by whole-list reduction. -/

/-- Length of a front-plus-padding buffer. -/
theorem pad_length (front : List Nat) (k : Nat) :
    (front ++ List.replicate k 0).length = front.length + k := by
  rw [List.length_append, List.length_replicate]

theorem getD_replicate_zero (n i : Nat) : (List.replicate n (0 : Nat)).getD i 0 = 0 := by
  rcases Nat.lt_or_ge i n with h | h
  · rw [List.getD_eq_getElem?_getD, List.getElem?_replicate]
    simp [h]
  · exact List.getD_eq_default _ _ (by simpa using h)

/-- A read below the front length hits the front segment. -/
theorem readU8_front (front : List Nat) (k i : Nat) (h : i < front.length) :
    readU8 (front ++ List.replicate k 0) i = front.getD i 0 :=
  List.getD_append front _ 0 i h

/-- A read at or beyond the front length yields 0 — whether it lands in
the zero padding or (as in the out-of-bounds dereference of claim C1)
beyond the buffer entirely. -/
theorem readU8_pad (front : List Nat) (k i : Nat) (h : front.length ≤ i) :
    readU8 (front ++ List.replicate k 0) i = 0 := by
  unfold readU8
  rw [List.getD_append_right front _ 0 i h, getD_replicate_zero]

theorem readU16_front (front : List Nat) (k i v : Nat) (h : i + 1 < front.length)
    (hv : front.getD i 0 + 256 * front.getD (i + 1) 0 = v) :
    readU16 (front ++ List.replicate k 0) i = v := by
  unfold readU16
  rw [readU8_front _ _ _ (by omega), readU8_front _ _ _ (by omega), hv]

theorem readU32_front (front : List Nat) (k i v : Nat) (h : i + 3 < front.length)
    (hv : front.getD i 0 + 256 * front.getD (i + 1) 0 + 65536 * front.getD (i + 2) 0 +
        16777216 * front.getD (i + 3) 0 = v) :
    readU32 (front ++ List.replicate k 0) i = v := by
  unfold readU32
  rw [readU8_front _ _ _ (by omega), readU8_front _ _ _ (by omega),
    readU8_front _ _ _ (by omega), readU8_front _ _ _ (by omega), hv]

theorem readU32_pad (front : List Nat) (k i : Nat) (h : front.length ≤ i) :
    readU32 (front ++ List.replicate k 0) i = 0 := by
  unfold readU32
  rw [readU8_pad _ _ _ (by omega), readU8_pad _ _ _ (by omega),
    readU8_pad _ _ _ (by omega), readU8_pad _ _ _ (by omega)]

theorem nameIsText_front (front : List Nat) (k i : Nat) (h : i + 4 < front.length)
    (hv : [front.getD i 0, front.getD (i + 1) 0, front.getD (i + 2) 0,
        front.getD (i + 3) 0, front.getD (i + 4) 0] = textBytes) :
    nameIsText (front ++ List.replicate k 0) i = true := by
  unfold nameIsText
  rw [readU8_front _ _ _ (by omega), readU8_front _ _ _ (by omega),
    readU8_front _ _ _ (by omega), readU8_front _ _ _ (by omega),
    readU8_front _ _ _ (by omega), hv]
  exact beq_self_eq_true textBytes

/-! Evaluation of the claim-C1 buffer. -/

theorem c1_len : c1buf.length = 4096 := by
  unfold c1buf
  rw [pad_length]
  decide

theorem c1_r16_0 : readU16 c1buf 0 = 0x5A4D := by
  unfold c1buf
  exact readU16_front _ _ _ _ (by decide) (by decide)

theorem c1_r32_60 : readU32 c1buf 60 = 4294967280 := by
  unfold c1buf
  exact readU32_front _ _ _ _ (by decide) (by decide)

theorem c1_r32_hi : readU32 c1buf 4294967280 = 0 := by
  unfold c1buf
  exact readU32_pad _ _ _ (by decide)

/-- C1 (code bug): the Section Locator is claimed never to read a byte
outside the buffer, every bounds check preceding the corresponding read.
On `c1buf` — a 4096-byte buffer with a valid `MZ` magic and
`e_lfanew = 0xFFFFFFF0` — the check `peOffset + 0x18 >= buffer.size()`
wraps in 32-bit arithmetic (0xFFFFFFF0 + 0x18 ≡ 8), passes, and the code
then dereferences `buffer[0xFFFFFFF0]`, far outside the 4096-byte
buffer: index 4294967280 is among the recorded reads. -/
theorem c1_sectionLocator_reads_oob :
    c1buf.length = 4096 ∧ (4294967280 : Nat) ∈ getTextSectionReads c1buf := by
  refine ⟨c1_len, ?_⟩
  rw [getTextSectionReads, c1_len, c1_r16_0, c1_r32_60]
  norm_num [readsU16, readsU32, U32, c1_r32_hi]

/-! Evaluation of the claim-C2 buffer. -/

theorem c2_len : c2buf.length = 4096 := by
  unfold c2buf
  rw [pad_length]
  decide

theorem c2_r16_0 : readU16 c2buf 0 = 0x5A4D := by
  unfold c2buf
  exact readU16_front _ _ _ _ (by decide) (by decide)

theorem c2_r32_60 : readU32 c2buf 60 = 128 := by
  unfold c2buf
  exact readU32_front _ _ _ _ (by decide) (by decide)

theorem c2_r32_128 : readU32 c2buf 128 = 0x4550 := by
  unfold c2buf
  exact readU32_front _ _ _ _ (by decide) (by decide)

theorem c2_r16_134 : readU16 c2buf 134 = 1 := by
  unfold c2buf
  exact readU16_front _ _ _ _ (by decide) (by decide)

theorem c2_r16_148 : readU16 c2buf 148 = 0 := by
  unfold c2buf
  exact readU16_front _ _ _ _ (by decide) (by decide)

theorem c2_name : nameIsText c2buf 152 = true := by
  unfold c2buf
  exact nameIsText_front _ _ _ (by decide) (by decide)

theorem c2_r32_172 : readU32 c2buf 172 = 4294967295 := by
  unfold c2buf
  exact readU32_front _ _ _ _ (by decide) (by decide)

theorem c2_r32_168 : readU32 c2buf 168 = 1 := by
  unfold c2buf
  exact readU32_front _ _ _ _ (by decide) (by decide)

theorem c2_loop : sectionLoop c2buf 152 1 = some ⟨4294967295, 1⟩ := by
  show (if 152 + 40 > c2buf.length then none
    else if nameIsText c2buf 152 then
      if (readU32 c2buf (152 + 20) + readU32 c2buf (152 + 16)) % U32 ≤ c2buf.length then
        some ⟨readU32 c2buf (152 + 20), readU32 c2buf (152 + 16)⟩
      else sectionLoop c2buf (152 + 40) 0
    else sectionLoop c2buf (152 + 40) 0) = some ⟨4294967295, 1⟩
  rw [c2_len]
  norm_num [c2_name, c2_r32_172, c2_r32_168, U32]

/-- C2 (code bug): every returned CodeSection is claimed to satisfy
`pointer + size ≤ buffer length`.  On `c2buf` — a well-formed 4096-byte
PE image whose `.text` entry has `PointerToRawData = 0xFFFFFFFF` and
`SizeOfRawData = 1` — the validation `rawDataPtr + rawSize <= size`
wraps in `uint32_t` arithmetic (0xFFFFFFFF + 1 ≡ 0), so the locator
returns a section lying entirely outside the buffer. -/
theorem c2_sectionBounds_oob :
    getTextSection c2buf = some ⟨4294967295, 1⟩ ∧ c2buf.length < 4294967295 + 1 := by
  refine ⟨?_, by rw [c2_len]; norm_num⟩
  rw [getTextSection, c2_len, c2_r16_0, c2_r32_60]
  norm_num [U32, c2_r32_128, c2_r16_134, c2_r16_148, c2_loop]

/-- Helper: the inner loop test of the matcher holds iff every pattern
element matches in the sense of claim C3. -/
theorem matchesAt_iff (B : List Nat) (P : List (Option Nat)) (o : Nat) :
    matchesAt B P o = true ↔ ∀ j < P.length, elemMatchC3 B P o j := by
  unfold matchesAt elemMatchC3
  rw [List.all_eq_true]
  constructor
  · intro h j hj v hv
    have hm := h j (List.mem_range.mpr hj)
    rw [hv] at hm
    exact beq_iff_eq.mp hm
  · intro h j hjm
    have hj := List.mem_range.mp hjm
    cases hgd : P.getD j none with
    | none => rfl
    | some v => exact beq_iff_eq.mpr (h j hj v hgd)

/-- C3 counterexample: with the empty buffer and the single-wildcard
pattern, every pattern element matches at offset 0 (the element is a
Wildcard), yet `findAll` does not contain 0 — so membership is not
equivalent to the element-wise condition alone. -/
theorem c3_counterexample :
    ¬ ((0 ∈ searchAllPatternOffsets [] [none]) ↔
        ∀ j < ([none] : List (Option Nat)).length, elemMatchC3 [] [none] 0 j) := by
  intro h
  have hall : ∀ j < ([none] : List (Option Nat)).length, elemMatchC3 [] [none] 0 j := by
    intro j hj v hv
    have hj0 : j = 0 := by
      simp only [List.length_singleton] at hj
      omega
    subst hj0
    exact Option.noConfusion hv
  exact absurd (h.mpr hall) (by decide)

/-- C3 amended: an offset `o` is in `findAll(B, P)` iff the window fits
(`o + len(P) ≤ len(B)`) and every pattern element matches at `o` —
that is, the matcher records exactly the in-range sliding-window
positions at which all elements match. -/
theorem c3_matcher_characterization (B : List Nat) (P : List (Option Nat)) (o : Nat) :
    o ∈ searchAllPatternOffsets B P ↔
      o + P.length ≤ B.length ∧ ∀ j < P.length, elemMatchC3 B P o j := by
  unfold searchAllPatternOffsets
  split
  case isTrue h =>
    simp only [List.not_mem_nil, false_iff]
    rintro ⟨hle, -⟩
    omega
  case isFalse h =>
    rw [List.mem_filter, List.mem_range]
    rw [matchesAt_iff]
    constructor
    · rintro ⟨hlt, hm⟩
      exact ⟨by omega, hm⟩
    · rintro ⟨hle, hm⟩
      exact ⟨by omega, hm⟩

/-- C3 amended, witness: the worked spec example — pattern `48 8B ?? 00`
on the 4-byte section `48 8B 11 00` — matches at offset 0. -/
theorem c3_matcher_characterization_witness :
    0 ∈ searchAllPatternOffsets [0x48, 0x8B, 0x11, 0x00] [some 0x48, some 0x8B, none, some 0x00] :=
  (c3_matcher_characterization _ _ 0).mpr
    ⟨by decide, by
      intro j hj v hv
      have hj4 : j < 4 := by simpa using hj
      interval_cases j <;>
        simp_all [List.getD_cons_zero, List.getD_cons_succ]⟩

/-- C4: the offsets returned by `findAll` are strictly ascending, each is
at most `len(B) - len(P)`, and the result is empty whenever
`len(P) > len(B)` (the subtraction is never reached in that case). -/
theorem c4_offsets_sorted_bounded (B : List Nat) (P : List (Option Nat)) :
    (searchAllPatternOffsets B P).Pairwise (· < ·) ∧
      (∀ o ∈ searchAllPatternOffsets B P, o ≤ B.length - P.length) ∧
      (P.length > B.length → searchAllPatternOffsets B P = []) := by
  refine ⟨?_, ?_, ?_⟩
  · unfold searchAllPatternOffsets
    split
    · exact List.Pairwise.nil
    · exact (List.pairwise_lt_range _).filter _
  · intro o ho
    unfold searchAllPatternOffsets at ho
    split at ho
    · exact absurd ho (List.not_mem_nil o)
    · have hr := List.mem_range.mp (List.mem_filter.mp ho).1
      omega
  · intro h
    unfold searchAllPatternOffsets
    rw [if_pos (by omega)]

/-- C4 witness: a pattern longer than the buffer yields the empty match
set. -/
theorem c4_offsets_sorted_bounded_witness :
    ([some 1] : List (Option Nat)).length > ([] : List Nat).length ∧
      searchAllPatternOffsets [] [some 1] = [] :=
  ⟨by decide, (c4_offsets_sorted_bounded [] [some 1]).2.2 (by decide)⟩

/-- C10: when a section-table entry named `.text` fails the
`rawDataPtr + rawSize` bounds validation, the walk does not stop with
NotFound there — it proceeds to the next 40-byte entry. -/
theorem c10_failed_entry_continues (buf : List Nat) (off n : Nat)
    (hfit : off + 40 ≤ buf.length)
    (hname : nameIsText buf off = true)
    (hfail : buf.length < (readU32 buf (off + 20) + readU32 buf (off + 16)) % U32) :
    sectionLoop buf off (n + 1) = sectionLoop buf (off + 40) n := by
  show (if off + 40 > buf.length then none
    else if nameIsText buf off then
      if (readU32 buf (off + 20) + readU32 buf (off + 16)) % U32 ≤ buf.length then
        some ⟨readU32 buf (off + 20), readU32 buf (off + 16)⟩
      else sectionLoop buf (off + 40) n
    else sectionLoop buf (off + 40) n) = sectionLoop buf (off + 40) n
  rw [if_neg (by omega), if_pos hname, if_neg (by omega)]

/-! Evaluation of the claim-C10 buffer. -/

theorem c10_len : c10buf.length = 4096 := by
  unfold c10buf
  rw [pad_length]
  decide

theorem c10_r16_0 : readU16 c10buf 0 = 0x5A4D := by
  unfold c10buf
  exact readU16_front _ _ _ _ (by decide) (by decide)

theorem c10_r32_60 : readU32 c10buf 60 = 128 := by
  unfold c10buf
  exact readU32_front _ _ _ _ (by decide) (by decide)

theorem c10_r32_128 : readU32 c10buf 128 = 0x4550 := by
  unfold c10buf
  exact readU32_front _ _ _ _ (by decide) (by decide)

theorem c10_r16_134 : readU16 c10buf 134 = 2 := by
  unfold c10buf
  exact readU16_front _ _ _ _ (by decide) (by decide)

theorem c10_r16_148 : readU16 c10buf 148 = 0 := by
  unfold c10buf
  exact readU16_front _ _ _ _ (by decide) (by decide)

theorem c10_name1 : nameIsText c10buf 152 = true := by
  unfold c10buf
  exact nameIsText_front _ _ _ (by decide) (by decide)

theorem c10_r32_172 : readU32 c10buf 172 = 0 := by
  unfold c10buf
  exact readU32_front _ _ _ _ (by decide) (by decide)

theorem c10_r32_168 : readU32 c10buf 168 = 0x2000 := by
  unfold c10buf
  exact readU32_front _ _ _ _ (by decide) (by decide)

theorem c10_name2 : nameIsText c10buf 192 = true := by
  unfold c10buf
  exact nameIsText_front _ _ _ (by decide) (by decide)

theorem c10_r32_212 : readU32 c10buf 212 = 256 := by
  unfold c10buf
  exact readU32_front _ _ _ _ (by decide) (by decide)

theorem c10_r32_208 : readU32 c10buf 208 = 16 := by
  unfold c10buf
  exact readU32_front _ _ _ _ (by decide) (by decide)

theorem c10_loop1 : sectionLoop c10buf 192 1 = some ⟨256, 16⟩ := by
  show (if 192 + 40 > c10buf.length then none
    else if nameIsText c10buf 192 then
      if (readU32 c10buf (192 + 20) + readU32 c10buf (192 + 16)) % U32 ≤ c10buf.length then
        some ⟨readU32 c10buf (192 + 20), readU32 c10buf (192 + 16)⟩
      else sectionLoop c10buf (192 + 40) 0
    else sectionLoop c10buf (192 + 40) 0) = some ⟨256, 16⟩
  rw [c10_len]
  norm_num [c10_name2, c10_r32_212, c10_r32_208, U32]

/-- C10 witness: on `c10buf` the first `.text` entry (at table offset
0x98 = 152) fails validation, the walk continues past it, and the
locator returns the second `.text` entry `(0x100, 0x10)`. -/
theorem c10_failed_entry_continues_witness :
    (152 + 40 ≤ c10buf.length ∧ nameIsText c10buf 152 = true ∧
        c10buf.length < (readU32 c10buf (152 + 20) + readU32 c10buf (152 + 16)) % U32) ∧
      sectionLoop c10buf 152 2 = sectionLoop c10buf 192 1 ∧
      getTextSection c10buf = some ⟨256, 16⟩ := by
  have h1 : 152 + 40 ≤ c10buf.length := by rw [c10_len]; norm_num
  have h3 : c10buf.length < (readU32 c10buf (152 + 20) + readU32 c10buf (152 + 16)) % U32 := by
    rw [c10_len]
    norm_num [c10_r32_172, c10_r32_168, U32]
  refine ⟨⟨h1, c10_name1, h3⟩, c10_failed_entry_continues c10buf 152 1 h1 c10_name1 h3, ?_⟩
  rw [getTextSection, c10_len, c10_r16_0, c10_r32_60]
  have hstep : sectionLoop c10buf 152 2 = sectionLoop c10buf 192 1 :=
    c10_failed_entry_continues c10buf 152 1 h1 c10_name1 h3
  norm_num [U32, c10_r32_128, c10_r16_134, c10_r16_148, hstep, c10_loop1]

/-! ### Character facts used by the Pattern Compiler and sort-key
claims -/

theorem char_beq_false (c d : Char) (h : c.toNat ≠ d.toNat) : (c == d) = false := by
  rw [beq_eq_false_iff_ne]
  intro he
  subst he
  exact h rfl

/-- A character whose code point lies in one of the three hex-digit
ranges is not whitespace, not a sign, and not `?`. -/
theorem charNonSpecial (c : Char)
    (hr : (48 ≤ c.toNat ∧ c.toNat ≤ 57) ∨ (97 ≤ c.toNat ∧ c.toNat ≤ 102) ∨
        (65 ≤ c.toNat ∧ c.toNat ≤ 70)) :
    isSpaceB c = false ∧ (c == '-') = false ∧ (c == '+') = false ∧ (c == '?') = false := by
  have w1 : (' ').toNat = 32 := rfl
  have w2 : ('\t').toNat = 9 := rfl
  have w3 : ('\n').toNat = 10 := rfl
  have w4 : ('\x0b').toNat = 11 := rfl
  have w5 : ('\x0c').toNat = 12 := rfl
  have w6 : ('\r').toNat = 13 := rfl
  have w7 : ('-').toNat = 45 := rfl
  have w8 : ('+').toNat = 43 := rfl
  have w9 : ('?').toNat = 63 := rfl
  refine ⟨?_, ?_, ?_, ?_⟩
  · unfold isSpaceB
    rw [char_beq_false _ _ (by omega), char_beq_false _ _ (by omega),
      char_beq_false _ _ (by omega), char_beq_false _ _ (by omega),
      char_beq_false _ _ (by omega), char_beq_false _ _ (by omega)]
    rfl
  · exact char_beq_false _ _ (by omega)
  · exact char_beq_false _ _ (by omega)
  · exact char_beq_false _ _ (by omega)

/-- Facts about a character with a hex-digit value. -/
theorem hexDigitVal_char_facts (c : Char) (v : Nat) (h : hexDigitVal c = some v) :
    v < 16 ∧ isSpaceB c = false ∧ (c == '-') = false ∧ (c == '+') = false ∧
      (c == '?') = false := by
  unfold hexDigitVal at h
  split_ifs at h with h1 h2 h3 <;> injection h with hv
  · exact ⟨by omega, charNonSpecial c (Or.inl h1)⟩
  · exact ⟨by omega, charNonSpecial c (Or.inr (Or.inl h2))⟩
  · exact ⟨by omega, charNonSpecial c (Or.inr (Or.inr h3))⟩

theorem isHexDigitB_of_val (c : Char) (v : Nat) (h : hexDigitVal c = some v) :
    isHexDigitB c = true := by
  unfold isHexDigitB
  rw [h]
  rfl

/-- Facts about a decimal-digit character. -/
theorem isDigitB_char_facts (c : Char) (h : isDigitB c = true) :
    isSpaceB c = false ∧ (c == '-') = false ∧ (c == '+') = false := by
  unfold isDigitB at h
  rw [Bool.and_eq_true, decide_eq_true_iff, decide_eq_true_iff] at h
  obtain ⟨hs, hm, hp, -⟩ := charNonSpecial c (Or.inl ⟨h.1, h.2⟩)
  exact ⟨hs, hm, hp⟩

/-! ### `stoul`/`tokenElem` evaluation on hex-digit tokens -/

theorem stoulHex_single (a : Char) (va : Nat) (h : hexDigitVal a = some va) :
    stoulHex [a] = some va := by
  obtain ⟨h16, hsp, hm, hp, -⟩ := hexDigitVal_char_facts a va h
  have hhx := isHexDigitB_of_val a va h
  have hU : ¬ (U64 ≤ va) := by unfold U64; omega
  simp [stoulHex, splitSign, dropHexMark, hexListVal, hsp, hm, hp, hhx, h, hU]

theorem stoulHex_pair (a b : Char) (va vb : Nat)
    (ha : hexDigitVal a = some va) (hb : hexDigitVal b = some vb) :
    stoulHex [a, b] = some (16 * va + vb) := by
  obtain ⟨ha16, hsa, hma, hpa, -⟩ := hexDigitVal_char_facts a va ha
  obtain ⟨hb16, -, -, -, -⟩ := hexDigitVal_char_facts b vb hb
  have hhxa := isHexDigitB_of_val a va ha
  have hhxb := isHexDigitB_of_val b vb hb
  have hU : ¬ (U64 ≤ 16 * va + vb) := by unfold U64; omega
  simp [stoulHex, splitSign, dropHexMark, hexListVal, hsa, hma, hpa, hhxa, hhxb, ha, hb, hU]

theorem tokenElem_hexSingle (a : Char) (va : Nat) (h : hexDigitVal a = some va) :
    tokenElem [a] = some (some va) := by
  obtain ⟨h16, -, -, -, hq⟩ := hexDigitVal_char_facts a va h
  have hne : a ≠ '?' := beq_eq_false_iff_ne.mp hq
  have e1 : ([a] == ['?']) = false := beq_eq_false_iff_ne.mpr (by simp [hne])
  have e2 : ([a] == ['?', '?']) = false := beq_eq_false_iff_ne.mpr (by simp)
  simp [tokenElem, e1, e2, stoulHex_single a va h, Nat.mod_eq_of_lt (show va < 256 by omega)]

theorem tokenElem_hexPair (a b : Char) (va vb : Nat)
    (ha : hexDigitVal a = some va) (hb : hexDigitVal b = some vb) :
    tokenElem [a, b] = some (some (16 * va + vb)) := by
  obtain ⟨ha16, -, -, -, hqa⟩ := hexDigitVal_char_facts a va ha
  obtain ⟨hb16, -, -, -, -⟩ := hexDigitVal_char_facts b vb hb
  have hne : a ≠ '?' := beq_eq_false_iff_ne.mp hqa
  have e1 : ([a, b] == ['?']) = false := beq_eq_false_iff_ne.mpr (by simp)
  have e2 : ([a, b] == ['?', '?']) = false := beq_eq_false_iff_ne.mpr (by simp [hne])
  simp [tokenElem, e1, e2, stoulHex_pair a b va vb ha hb,
    Nat.mod_eq_of_lt (show 16 * va + vb < 256 by omega)]

/-- C7 counterexample: the token `123` is neither `?`/`??` nor a token of
at most two hex digits, so the claim says it is skipped; the code feeds
it to `std::stoul`, which parses 0x123, and the `uint8_t` cast truncates
it to 0x23 = 35 — the token contributes a Fixed element. -/
theorem c7_counterexample :
    tokenElem (("123").toList) = some (some 35) ∧
      specTokenC7 (("123").toList) = none := by
  constructor <;> decide

/-- C7 amended: `?`/`??` compile to a Wildcard; a token of one or two hex
digits compiles to a Fixed element with that value; but any other token
is skipped only when `std::stoul` finds no parseable hex prefix in it —
a token with a parseable prefix (longer than two digits, `0x`-prefixed,
signed, or with trailing garbage) contributes `Fixed(parsed % 256)`
instead of being skipped. -/
theorem c7_token_mapping :
    (tokenElem (("?").toList) = some none ∧ tokenElem (("??").toList) = some none) ∧
      (∀ a va, hexDigitVal a = some va → tokenElem [a] = some (some va)) ∧
      (∀ a b va vb, hexDigitVal a = some va → hexDigitVal b = some vb →
        tokenElem [a, b] = some (some (16 * va + vb))) ∧
      (∀ t, stoulHex t = none → (t == ['?']) = false → (t == ['?', '?']) = false →
        tokenElem t = none) ∧
      (∀ t m, stoulHex t = some m → (t == ['?']) = false → (t == ['?', '?']) = false →
        tokenElem t = some (some (m % 256))) := by
  refine ⟨⟨by decide, by decide⟩, tokenElem_hexSingle, tokenElem_hexPair, ?_, ?_⟩
  · intro t h h1 h2
    unfold tokenElem
    rw [h1, h2, h]
    rfl
  · intro t m h h1 h2
    unfold tokenElem
    rw [h1, h2, h]
    rfl

/-- C7 amended, witness: `A` compiles to Fixed 0x0A; `123` compiles to
Fixed 0x23 via the `stoul`-prefix clause. -/
theorem c7_token_mapping_witness :
    tokenElem (['A']) = some (some 10) ∧ tokenElem (("123").toList) = some (some 35) :=
  ⟨c7_token_mapping.2.1 'A' 10 (by decide), by
    rw [c7_token_mapping.2.2.2.2 (("123").toList) 291 (by decide) (by decide) (by decide)]⟩

/-! ### Claim C6: BuildIdentifier and sort key -/

/-- Shifting the four-digit window test past the head character. -/
theorem fourDigitsAt_cons (c : Char) (cs : List Char) (i : Nat) :
    fourDigitsAt (c :: cs) (i + 1) = fourDigitsAt cs i := by
  unfold fourDigitsAt
  rw [List.drop_succ_cons]

/-- C6 counterexample: `ab1234cd.exe` has no trailing run of four digits,
so the claim makes the BuildIdentifier the raw filename; the code's
`regex_search` finds the interior window `1234`.  And `9x.text` is not
purely digits, so the claim makes the sort key 0; the code's `std::stoi`
parses the leading `9`. -/
theorem c6_counterexample :
    buildIdOf (("ab1234cd.exe").toList) = ("1234").toList ∧
      specBuildIdC6 (("ab1234cd.exe").toList) = ("ab1234cd.exe").toList ∧
      ("1234").toList ≠ ("ab1234cd.exe").toList ∧
      stoiKey (("9x.text").toList) = 9 ∧
      ¬ ((("9x.text").toList).all isDigitB = true) ∧ (9 : Int) ≠ 0 := by
  refine ⟨by decide, by decide, by decide, by decide, by decide, by decide⟩

/-- C6 amended: the BuildIdentifier's digit window is the LEFTMOST window
of four consecutive decimal digits anywhere in the filename (not a
trailing run); and the sort key equals the parsed value whenever the
build string is purely digits (within `int` range) — for other build
strings the key is whatever `std::stoi` parses from their leading
characters, 0 only when there is no leading signed digit run. -/
theorem c6_buildId_characterization :
    (∀ s w : List Char, extractBuildNumber s = some w ↔
        ∃ i, fourDigitsAt s i = true ∧ (∀ k < i, fourDigitsAt s k = false) ∧
          w = (s.drop i).take 4) ∧
      (∀ b : List Char, b ≠ [] → b.all isDigitB = true →
        (decListVal b : Int) ≤ 2147483647 → stoiKey b = decListVal b) := by
  constructor
  · intro s
    induction s with
    | nil =>
      intro w
      constructor
      · intro h
        exact Option.noConfusion h
      · rintro ⟨i, hi, -, -⟩
        rw [show fourDigitsAt [] i = false from by unfold fourDigitsAt; simp] at hi
        exact Bool.noConfusion hi
    | cons c cs ih =>
      intro w
      by_cases h0 : fourDigitsAt (c :: cs) 0 = true
      · rw [extractBuildNumber, if_pos h0]
        constructor
        · intro h
          injection h with h
          refine ⟨0, h0, fun k hk => absurd hk (Nat.not_lt_zero k), ?_⟩
          rw [← h, List.drop_zero]
        · rintro ⟨i, hi, hmin, hw⟩
          have hi0 : i = 0 := by
            by_contra hne
            have := hmin 0 (Nat.pos_of_ne_zero hne)
            rw [h0] at this
            exact Bool.noConfusion this
          subst hi0
          rw [List.drop_zero] at hw
          rw [hw]
      · rw [extractBuildNumber, if_neg h0, ih w]
        have h0f : fourDigitsAt (c :: cs) 0 = false := by
          cases hb : fourDigitsAt (c :: cs) 0
          · rfl
          · exact absurd hb h0
        constructor
        · rintro ⟨i, hi, hmin, hw⟩
          refine ⟨i + 1, ?_, ?_, ?_⟩
          · rw [fourDigitsAt_cons]
            exact hi
          · intro k hk
            cases k with
            | zero => exact h0f
            | succ k' =>
              rw [fourDigitsAt_cons]
              exact hmin k' (by omega)
          · rw [List.drop_succ_cons]
            exact hw
        · rintro ⟨i, hi, hmin, hw⟩
          cases i with
          | zero =>
            rw [h0f] at hi
            exact Bool.noConfusion hi
          | succ i' =>
            rw [fourDigitsAt_cons] at hi
            refine ⟨i', hi, ?_, ?_⟩
            · intro k hk
              have := hmin (k + 1) (by omega)
              rw [fourDigitsAt_cons] at this
              exact this
            · rw [List.drop_succ_cons] at hw
              exact hw
  · intro b hne hall hbound
    obtain ⟨c, r, rfl⟩ : ∃ c r, b = c :: r := by
      cases b with
      | nil => exact absurd rfl hne
      | cons c r => exact ⟨c, r, rfl⟩
    have hc : isDigitB c = true := by
      rw [List.all_cons, Bool.and_eq_true] at hall
      exact hall.1
    obtain ⟨hs, hm, hp⟩ := isDigitB_char_facts c hc
    have htw : (c :: r).takeWhile isDigitB = c :: r :=
      List.takeWhile_eq_self_iff.mpr (fun a ha => by
        rw [List.all_eq_true] at hall
        exact hall a ha)
    unfold stoiKey stoiModel
    simp only [List.dropWhile_cons, hs, Bool.false_eq_true, if_false, splitSign, hm, hp, htw]
    rw [if_neg (by simp)]
    rw [if_neg (by omega)]
    rfl

/-! ### Claim C5: aggregation, sorting and the allMatched flag -/

/-- C5 counterexample: a directory holding the single file
`Pattern not found in a_1234.text` whose content matches the pattern.
The only emitted line is a found line (`found = true` for every
produced result), so the claim says `allMatched = true`; but the code
decides `allFound` by searching each line for the substring
`"Pattern not found"`, which also occurs inside this found line's game
name, so it returns false. -/
theorem c5_counterexample :
    (scanDirectoryModel false [some 144] [c5file]).2 = false ∧
      (∀ r ∈ [c5file].filterMap (scanFileModel false [some 144]), r.found = true) ∧
      ([c5file].filterMap (scanFileModel false [some 144])).length = 1 := by
  refine ⟨by decide, by decide, by decide⟩

/-- C5 amended: the emitted lines are the collected results sorted by
numeric key (nondecreasing, a permutation of the collected results);
`allMatched = true` iff no collected line CONTAINS the substring
`"Pattern not found"` (not: iff no line is a not-found line — a found
line whose game name contains that text also falsifies it); and a file
skipped for read failure or missing section contributes nothing. -/
theorem c5_aggregation (colors : Bool) (pat : List (Option Nat)) (completed : List FileInput) :
    ((scanDirectoryModel colors pat completed).1 =
        (sortResults (completed.filterMap (scanFileModel colors pat))).map (fun r => r.line)) ∧
      ((sortResults (completed.filterMap (scanFileModel colors pat))).Pairwise
        (fun a b => a.build ≤ b.build)) ∧
      ((sortResults (completed.filterMap (scanFileModel colors pat))).Perm
        (completed.filterMap (scanFileModel colors pat))) ∧
      ((scanDirectoryModel colors pat completed).2 = true ↔
        ∀ r ∈ completed.filterMap (scanFileModel colors pat),
          hasInfixB notFoundMarker r.line = false) ∧
      (∀ f rest, scanFileModel colors pat f = none →
        scanDirectoryModel colors pat (f :: rest) = scanDirectoryModel colors pat rest) := by
  haveI : IsTotal ResultLine (fun a b => a.build ≤ b.build) :=
    ⟨fun a b => Int.le_total a.build b.build⟩
  haveI : IsTrans ResultLine (fun a b => a.build ≤ b.build) :=
    ⟨fun a b c h1 h2 => le_trans h1 h2⟩
  refine ⟨rfl, List.sorted_insertionSort _ _, List.perm_insertionSort _ _, ?_, ?_⟩
  · unfold scanDirectoryModel
    simp only [List.all_eq_true, Bool.not_eq_true']
    have hp : (sortResults (completed.filterMap (scanFileModel colors pat))).Perm
        (completed.filterMap (scanFileModel colors pat)) := List.perm_insertionSort _ _
    exact ⟨fun h r hr => h r (hp.mem_iff.mpr hr), fun h r hr => h r (hp.mem_iff.mp hr)⟩
  · intro f rest h
    unfold scanDirectoryModel
    rw [List.filterMap_cons_none h]

/-- C5 amended, witness: a file whose read fails (empty content) is
omitted and leaves the scan of the remaining (empty) directory
unchanged. -/
theorem c5_aggregation_witness :
    scanFileModel false [] { name := ("x.text").toList, isRegular := true, content := [] } =
        none ∧
      scanDirectoryModel false []
          [{ name := ("x.text").toList, isRegular := true, content := [] }] =
        scanDirectoryModel false [] [] :=
  ⟨by decide, (c5_aggregation false [] []).2.2.2.2 _ [] (by decide)⟩

/-! ### Claim C9: determinism of the sorted report -/

/-- C9 counterexample: two completion orders of the same two files (both
with sort key 0, since `std::stoi` throws on their names) produce
different sorted reports — the sort cannot separate equal keys, so ties
keep completion order. -/
theorem c9_counterexample :
    ([c9a, c9b].Perm [c9b, c9a]) ∧
      scanDirectoryModel false [some 1] [c9a, c9b] ≠
        scanDirectoryModel false [some 1] [c9b, c9a] := by
  refine ⟨List.Perm.swap c9b c9a [], by decide⟩

/-- Sorting is insensitive to the collection order as soon as the sort
keys are pairwise distinct. -/
theorem sortResults_eq_of_perm (rs₁ rs₂ : List ResultLine) (hperm : rs₁.Perm rs₂)
    (hnodup : (rs₁.map (fun r => r.build)).Nodup) :
    sortResults rs₁ = sortResults rs₂ := by
  haveI : IsTotal ResultLine (fun a b => a.build ≤ b.build) :=
    ⟨fun a b => Int.le_total a.build b.build⟩
  haveI : IsTrans ResultLine (fun a b => a.build ≤ b.build) :=
    ⟨fun a b c h1 h2 => le_trans h1 h2⟩
  have hp1 : (sortResults rs₁).Perm rs₁ := List.perm_insertionSort _ _
  have hp2 : (sortResults rs₂).Perm rs₂ := List.perm_insertionSort _ _
  have hp : (sortResults rs₁).Perm (sortResults rs₂) := hp1.trans (hperm.trans hp2.symm)
  have hnd1 : ((sortResults rs₁).map (fun r => r.build)).Nodup :=
    ((hp1.map (fun r => r.build)).nodup_iff).mpr hnodup
  have hnd2 : ((sortResults rs₂).map (fun r => r.build)).Nodup :=
    ((hp.map (fun r => r.build)).nodup_iff).mp hnd1
  have hne1 : (sortResults rs₁).Pairwise (fun a b => a.build ≠ b.build) := by
    have h := hnd1
    unfold List.Nodup at h
    rwa [List.pairwise_map] at h
  have hne2 : (sortResults rs₂).Pairwise (fun a b => a.build ≠ b.build) := by
    have h := hnd2
    unfold List.Nodup at h
    rwa [List.pairwise_map] at h
  have hle1 : (sortResults rs₁).Pairwise (fun a b => a.build ≤ b.build) :=
    List.sorted_insertionSort _ _
  have hle2 : (sortResults rs₂).Pairwise (fun a b => a.build ≤ b.build) :=
    List.sorted_insertionSort _ _
  have hlt1 : (sortResults rs₁).Pairwise (fun a b => a.build < b.build) :=
    (hle1.and hne1).imp (fun h => lt_of_le_of_ne h.1 h.2)
  have hlt2 : (sortResults rs₂).Pairwise (fun a b => a.build < b.build) :=
    (hle2.and hne2).imp (fun h => lt_of_le_of_ne h.1 h.2)
  haveI : IsAntisymm ResultLine (fun a b => a.build < b.build) :=
    ⟨fun a b h1 h2 => absurd (lt_trans h1 h2) (lt_irrefl _)⟩
  exact List.eq_of_perm_of_sorted hp hlt1 hlt2

/-- C9 amended: the report is independent of worker-completion order
whenever the collected results' sort keys are pairwise distinct (with
equal keys the relative order of the tied lines follows completion
order, as the spec's data-model section itself concedes). -/
theorem c9_determinism (colors : Bool) (pat : List (Option Nat)) (l₁ l₂ : List FileInput)
    (hperm : l₁.Perm l₂)
    (hnodup : ((l₁.filterMap (scanFileModel colors pat)).map (fun r => r.build)).Nodup) :
    scanDirectoryModel colors pat l₁ = scanDirectoryModel colors pat l₂ := by
  have hr : (l₁.filterMap (scanFileModel colors pat)).Perm
      (l₂.filterMap (scanFileModel colors pat)) := hperm.filterMap _
  have hsorted : sortResults (l₁.filterMap (scanFileModel colors pat)) =
      sortResults (l₂.filterMap (scanFileModel colors pat)) :=
    sortResults_eq_of_perm _ _ hr hnodup
  simp only [scanDirectoryModel, hsorted]

/-- C9 amended, witness: two completion orders of two files with the
distinct keys 1001 and 1002 give identical reports. -/
theorem c9_determinism_witness :
    scanDirectoryModel false [some 1] [c9c, c9d] =
      scanDirectoryModel false [some 1] [c9d, c9c] :=
  c9_determinism false [some 1] _ _ (List.Perm.swap c9d c9c []) (by decide)

/-- C6 amended, witness: on the spec's example filename the leftmost
four-digit window is `1001` (first at index 5) and a purely-digit build
string gets its parsed value as sort key. -/
theorem c6_buildId_characterization_witness :
    extractBuildNumber (("game_1001.text").toList) = some (("1001").toList) ∧
      stoiKey (("1001").toList) = 1001 := by
  constructor
  · exact (c6_buildId_characterization.1 _ _).mpr ⟨5, by decide, by decide, by decide⟩
  · rw [c6_buildId_characterization.2 (("1001").toList) (by decide) (by decide) (by decide)]
    decide

/-! ### Claim C8: input errors abort before file I/O -/

/-- C8 counterexample: in argument mode with a valid pattern and a
missing scan path, `main` never validates the path; the
`directory_iterator` construction inside `scanDirectory` throws an
uncaught `filesystem_error` and the process terminates, rather than the
error being reported and the operation aborting normally.  (No file is
read either way.) -/
theorem c8_counterexample :
    parseBytePattern (("90").toList) ≠ [] ∧
      dirValid { present := false, isDir := false, entries := [] } = false ∧
      mainModel false (("90").toList) [] { present := false, isDir := false, entries := [] } =
        { outcome := RunOutcome.crashed, filesRead := [] } := by
  refine ⟨by decide, by decide, by decide⟩

/-- C8 amended: an empty-compiling pattern is rejected before any file
I/O in both modes, and a missing/non-directory path is validated and
reported (exit 1) in interactive mode — but in argument mode the path is
never validated: `scanDirectory`'s directory iteration throws an
unhandled exception that terminates the process (still before any file
is read). -/
theorem c8_input_errors (colors : Bool) (argPat : List Char) (inputs : List (List Char))
    (d : DirState) :
    (argPat ≠ [] → parseBytePattern argPat = [] →
        mainModel colors argPat inputs d = { outcome := .exited 1, filesRead := [] }) ∧
      (argPat = [] → dirValid d = false →
        mainModel colors argPat inputs d = { outcome := .exited 1, filesRead := [] }) ∧
      (∀ line rest, argPat = [] → dirValid d = true → inputs = line :: rest →
        parseBytePattern line = [] →
        mainModel colors argPat inputs d = { outcome := .exited 0, filesRead := [] }) ∧
      (argPat ≠ [] → parseBytePattern argPat ≠ [] → dirValid d = false →
        mainModel colors argPat inputs d = { outcome := .crashed, filesRead := [] }) := by
  refine ⟨?_, ?_, ?_, ?_⟩
  · intro hne hempty
    have hA : argPat.isEmpty = false := by
      cases argPat with
      | nil => exact absurd rfl hne
      | cons c r => rfl
    unfold mainModel mainArgMode
    rw [hA, hempty]
    rfl
  · intro hnil hdv
    subst hnil
    unfold mainModel mainInteractive
    rw [hdv]
    rfl
  · intro line rest hnil hdv hin hline
    subst hnil
    subst hin
    unfold mainModel mainInteractive interactiveLoop
    rw [hdv, hline]
    rfl
  · intro hne hpat hdv
    have hA : argPat.isEmpty = false := by
      cases argPat with
      | nil => exact absurd rfl hne
      | cons c r => rfl
    have hP : (parseBytePattern argPat).isEmpty = false := by
      cases hp : parseBytePattern argPat with
      | nil => exact absurd hp hpat
      | cons x xs => rfl
    unfold mainModel mainArgMode scanDirectoryRun
    rw [hA]
    simp [hP, hdv]

/-- C8 amended, witness: an unparseable pattern argument exits with code
1 reading nothing; a bad path in interactive mode exits with code 1
reading nothing; a bad path in argument mode with a valid pattern
crashes, reading nothing. -/
theorem c8_input_errors_witness :
    mainModel false (("zz").toList) [] { present := true, isDir := true, entries := [] } =
        { outcome := .exited 1, filesRead := [] } ∧
      mainModel false [] [] { present := false, isDir := true, entries := [] } =
        { outcome := .exited 1, filesRead := [] } ∧
      mainModel false (("90").toList) [] { present := false, isDir := false, entries := [] } =
        { outcome := .crashed, filesRead := [] } :=
  ⟨(c8_input_errors false (("zz").toList) []
      { present := true, isDir := true, entries := [] }).1 (by decide) (by decide),
    (c8_input_errors false [] [] { present := false, isDir := true, entries := [] }).2.1
      rfl (by decide),
    (c8_input_errors false (("90").toList) []
      { present := false, isDir := false, entries := [] }).2.2.2
      (by decide) (by decide) (by decide)⟩
